import Mathlib

/-!
Shallow embedding of `src/CTT-Cross-Sync-Browser-to-Kernel-Temporal-Resonance-Escape.js`.

The JavaScript source is a timed-cascade generator (`CTT_CrossSyncVortex`):
an exponential-decay energy cascade over 33 layers, a per-layer delay
computation with prime modulation and trig jitter, a resonance analyzer over
recorded delay samples, and a handshake coordinator that materializes a
Bridge on each handshake response.

Modelling conventions:
  - JavaScript numbers are modelled as real numbers (`ℝ`).
  - The `Map` `temporalFrequencies` is modelled as an association list
    `List (ℕ × List ℝ)` in insertion order, matching JS `Map` iteration order.
  - JavaScript `NaN` arising from `0/0` in the aggregate-deviation average is
    modelled as `Option ℝ` being `none`; `NaN < 0.1` is false in JS, which is
    the `none => false` branch of `converged`.
  - Exceptions are modelled with `Except ℕ`; error values are opaque numeric
    codes.  Fault injection functions (`ℕ → Option ℕ`) say whether a given
    stimulus call throws at a given layer.
  - The ambient clock (`Date.now()`) read inside the delay computation is
    surfaced as an explicit parameter `now`, one sample per call site.
  - Bridge ids (strings in JS) are modelled as opaque numeric identifiers.
-/

/-- CTT_CONFIG.ALPHA from the source. -/
noncomputable def ALPHA : ℝ := 0.0302011

/-- CTT_CONFIG.LAYERS from the source. -/
def LAYERS : ℕ := 33

/-- CTT_CONFIG.PRIMES from the source. -/
def CTT_PRIMES : List ℕ := [2, 3, 5, 7, 11, 13, 17, 19, 23, 29, 31]

/-- CTT_CONFIG.RESONANCE_THRESHOLD from the source (used only in a log check). -/
noncomputable def RESONANCE_THRESHOLD : ℝ := 0.4041

/-- Energy levels computed in the `CTT_CrossSyncVortex` constructor:
`Array.from({length: layerCount}, (_, d) => Math.exp(-alpha * d))`,
generalized over the two configuration parameters it reads. -/
noncomputable def computeLevels (alpha : ℝ) (layerCount : ℕ) : List ℝ :=
  (List.range layerCount).map (fun (d : ℕ) => Real.exp (-(alpha * d)))

/-- The concrete `this.energyLevels` of a fresh vortex. -/
noncomputable def energyLevels : List ℝ := computeLevels ALPHA LAYERS

/-- The concrete `this.totalEnergy` of a fresh vortex. -/
noncomputable def totalEnergy : ℝ := energyLevels.sum

/-- Prime factor lookup in `createTemporalPressure`:
`CTT_CONFIG.PRIMES.find(p => layer % p === 0) || 1`. -/
def primeFactor (layer : ℕ) : ℕ :=
  (CTT_PRIMES.find? (fun p => layer % p == 0)).getD 1

/-- The delay computed by `createTemporalPressure` before it suspends:
`baseDelay = energy * primeFactor * 1000`,
`jitter = (layer even ? sin : cos)(Date.now() * 0.001) * 50`,
`totalDelay = Math.max(1, baseDelay + jitter)`.
The ambient clock reading `Date.now()` is the explicit argument `now`. -/
noncomputable def createTemporalPressureDelay (layer : ℕ) (energy : ℝ) (now : ℝ) : ℝ :=
  max 1 (energy * (primeFactor layer : ℝ) * 1000 +
    (if layer % 2 = 0 then Real.sin (now * 0.001) else Real.cos (now * 0.001)) * 50)

/-- Modelled from the spec: the abstract operation
`computeDelay(layerIndex, energy, config, clockSample)` of section 4.2, stated
in the words of the claim: `primeFactor` is the first element of the prime set
dividing the layer index (1 if none), `baseDelay = energy * primeFactor * 1000`,
`jitter = sin(clockSample) * 50` for even layers and `cos(clockSample) * 50`
for odd layers, and the result is `max(1, baseDelay + jitter)`. -/
noncomputable def computeDelaySpec (layer : ℕ) (energy : ℝ) (clockSample : ℝ) : ℝ :=
  max 1 (energy * (((CTT_PRIMES.find? (fun p => layer % p == 0)).getD 1 : ℕ) : ℝ) * 1000 +
    (if layer % 2 = 0 then Real.sin clockSample else Real.cos clockSample) * 50)

/-- Expected per-layer delay used in `analyzeResonancePattern`:
`Math.exp(-CTT_CONFIG.ALPHA * layer) * 1000`. -/
noncomputable def expectedDelay (layer : ℕ) : ℝ :=
  Real.exp (-(ALPHA * layer)) * 1000

/-- The `{layer, deviation}` verdict of `analyzeResonancePattern`, together
with the aggregate.  `aggregateDeviation = none` models the JavaScript `NaN`
produced by `0 / 0` when no layer qualifies. -/
structure ResonanceVerdict where
  perLayerDeviation : List (ℕ × ℝ)
  aggregateDeviation : Option ℝ
  converged : Bool

/-- Per-layer relative deviation computed in `analyzeResonancePattern`:
`|average(delays) - expected| / expected`. -/
noncomputable def layerDeviation (layer : ℕ) (delays : List ℝ) : ℝ :=
  |delays.sum / (delays.length : ℝ) - expectedDelay layer| / expectedDelay layer

/-- The pure content of `analyzeResonancePattern`: filter the frequency map to
layers with more than one sample, compute each relative deviation, average
them, and compare the average against the hard-coded 0.1 gate.  An empty
qualifying set gives `0 / 0 = NaN` in JS, modelled as `none`, and
`NaN < 0.1` is false, modelled by the `none => false` branch. -/
noncomputable def computeVerdict (freqs : List (ℕ × List ℝ)) : ResonanceVerdict :=
  let qualifying := freqs.filter (fun e => decide (1 < e.2.length))
  let devs := qualifying.map (fun e => (e.1, layerDeviation e.1 e.2))
  let agg : Option ℝ :=
    if devs = [] then none else some ((devs.map Prod.snd).sum / (devs.length : ℝ))
  { perLayerDeviation := devs
    aggregateDeviation := agg
    converged := match agg with
      | none => false
      | some d => if d < (0.1 : ℝ) then true else false }

/-- Observable state of one vortex run: the `temporalFrequencies` map, the
`resonanceEstablished` flag, and instrumentation counters recording how many
times `attemptCrossDomainHandshake` was invoked, how many stimulus calls
completed, and how many cascade layers the driver finished awaiting. -/
structure RunState where
  freqs : List (ℕ × List ℝ)
  resonanceEstablished : Bool
  handshakeAttempts : ℕ
  stimuliFired : ℕ
  layersCompleted : ℕ

/-- State of a fresh `CTT_CrossSyncVortex`. -/
def initState : RunState :=
  { freqs := [], resonanceEstablished := false, handshakeAttempts := 0
    stimuliFired := 0, layersCompleted := 0 }

/-- The `temporalFrequencies` update of `recordFrequency`:
if the layer key is absent, insert it with an empty array, then push the
delay onto the array for that key. -/
def insertSample (freqs : List (ℕ × List ℝ)) (layer : ℕ) (delay : ℝ) :
    List (ℕ × List ℝ) :=
  if freqs.any (fun e => e.1 == layer) then
    freqs.map (fun e => if e.1 = layer then (e.1, e.2 ++ [delay]) else e)
  else
    freqs ++ [(layer, [delay])]

/-- The state transition of `analyzeResonancePattern`: when the computed
verdict converges, set `resonanceEstablished` and invoke
`attemptCrossDomainHandshake` (counted); otherwise only log. -/
noncomputable def analyzeResonancePattern (s : RunState) : RunState :=
  if (computeVerdict s.freqs).converged then
    { s with resonanceEstablished := true
             handshakeAttempts := s.handshakeAttempts + 1 }
  else s

/-- `recordFrequency(layer, delay)`: append the sample, then run the analyzer
exactly when `layer === CTT_CONFIG.LAYERS - 1`. -/
noncomputable def recordFrequency (layer : ℕ) (delay : ℝ) (s : RunState) : RunState :=
  let s1 := { s with freqs := insertSample s.freqs layer delay }
  if layer = LAYERS - 1 then analyzeResonancePattern s1 else s1

/-- `applyDOMPressure`: no try/catch in the source, so an injected fault
propagates to the caller; otherwise the stimulus completes. -/
def applyDOMPressure (fault : ℕ → Option ℕ) (layer : ℕ) (s : RunState) :
    Except ℕ RunState :=
  match fault layer with
  | some e => .error e
  | none => .ok { s with stimuliFired := s.stimuliFired + 1 }

/-- `applyWorkerPressure`: the whole body is wrapped in try/catch (a CSP
failure is logged at debug level), so an injected fault is swallowed. -/
def applyWorkerPressure (fault : ℕ → Option ℕ) (layer : ℕ) (s : RunState) :
    Except ℕ RunState :=
  match fault layer with
  | some _ => .ok s
  | none => .ok { s with stimuliFired := s.stimuliFired + 1 }

/-- `applyRAFPressure`: no try/catch in the source, so an injected fault in
the synchronous part of the call propagates to the caller. -/
def applyRAFPressure (fault : ℕ → Option ℕ) (layer : ℕ) (s : RunState) :
    Except ℕ RunState :=
  match fault layer with
  | some e => .error e
  | none => .ok { s with stimuliFired := s.stimuliFired + 1 }

/-- `createTemporalPressure(layer, energy)`: compute the delay from the
ambient clock, fire the three stimuli in order, then (when the timeout
resolves) record the delay via `recordFrequency`. -/
noncomputable def createTemporalPressure (domF workF rafF : ℕ → Option ℕ)
    (now : ℝ) (layer : ℕ) (energy : ℝ) (s : RunState) : Except ℕ RunState :=
  match applyDOMPressure domF layer s with
  | .error e => .error e
  | .ok s1 =>
    match applyWorkerPressure workF layer s1 with
    | .error e => .error e
    | .ok s2 =>
      match applyRAFPressure rafF layer s2 with
      | .error e => .error e
      | .ok s3 => .ok (recordFrequency layer
          (createTemporalPressureDelay layer energy now) s3)

/-- The sequential cascade loop of `triggerCrossDomainVortex`:
`for (let d = 0; d < layerCount; d++) await createTemporalPressure(d, ...)`.
Runs `n` layers starting at index `d`; an uncaught stimulus exception rejects
the promise chain and aborts the remaining layers. -/
noncomputable def runCascade (domF workF rafF : ℕ → Option ℕ) (clock : ℕ → ℝ)
    (levels : List ℝ) : ℕ → ℕ → RunState → Except ℕ RunState
  | _, 0, s => .ok s
  | d, n + 1, s =>
    match createTemporalPressure domF workF rafF (clock d) d (levels.getD d 0) s with
    | .error e => .error e
    | .ok s1 => runCascade domF workF rafF clock levels (d + 1) n
        { s1 with layersCompleted := s1.layersCompleted + 1 }

/-- `triggerCrossDomainVortex` on a fresh vortex, with the layer count
generalized the way the constructor reads it from the configuration. -/
noncomputable def triggerCrossDomainVortex (domF workF rafF : ℕ → Option ℕ)
    (clock : ℕ → ℝ) (layerCount : ℕ) : Except ℕ RunState :=
  runCascade domF workF rafF clock (computeLevels ALPHA layerCount) 0 layerCount initState

/-- The Bridge record built in `establishTemporalBridge`:
`{id: handshakeData.bridgeId, energy: handshakeData.energy, established: Date.now()}`.
Bridge ids are modelled as opaque numeric identifiers. -/
structure Bridge where
  id : ℕ
  energy : ℝ
  established : ℕ

/-- The payload of a `CTT_HANDSHAKE_RESPONSE` message. -/
structure HandshakeResponseMsg where
  bridgeId : ℕ
  energy : ℝ

/-- Coordinator state: `this.activeBridge` plus an instrumentation counter of
how many Bridge objects have been created. -/
structure CoordState where
  activeBridge : Option Bridge
  bridgesCreated : ℕ

/-- Coordinator state before any handshake response arrives. -/
def initCoord : CoordState := { activeBridge := none, bridgesCreated := 0 }

/-- `establishTemporalBridge(handshakeData)`: unconditionally build a fresh
Bridge from the response and store it in `this.activeBridge`; there is no
guard against an existing bridge. -/
def establishTemporalBridge (now : ℕ) (data : HandshakeResponseMsg)
    (s : CoordState) : CoordState :=
  { activeBridge := some { id := data.bridgeId, energy := data.energy, established := now }
    bridgesCreated := s.bridgesCreated + 1 }

/-- Delivery of a sequence of `CTT_HANDSHAKE_RESPONSE` messages to the
listener registered by `handshakeViaPostMessage`, each paired with the clock
value at its delivery time. -/
def deliverResponses (resps : List (HandshakeResponseMsg × ℕ)) (s : CoordState) :
    CoordState :=
  resps.foldl (fun s r => establishTemporalBridge r.2 r.1 s) s

/-- Frequency map of a run in which each of the first `n` layers recorded
exactly one delay sample, namely `δ d` for layer `d`. -/
def singletonFreqs (δ : ℕ → ℝ) (n : ℕ) : List (ℕ × List ℝ) :=
  (List.range n).map (fun d => (d, [δ d]))

lemma insertSample_of_fresh_key (freqs : List (ℕ × List ℝ)) (layer : ℕ) (delay : ℝ)
    (h : ∀ e ∈ freqs, e.1 ≠ layer) :
    insertSample freqs layer delay = freqs ++ [(layer, [delay])] := by
  unfold insertSample
  have hany : freqs.any (fun e => e.1 == layer) = false := by
    simp only [List.any_eq_false]
    intro e he
    simp [h e he]
  rw [hany]
  simp

lemma singletonFreqs_succ (δ : ℕ → ℝ) (n : ℕ) :
    singletonFreqs δ (n + 1) = singletonFreqs δ n ++ [(n, [δ n])] := by
  simp [singletonFreqs, List.range_succ]

lemma insertSample_singletonFreqs (δ : ℕ → ℝ) (n : ℕ) :
    insertSample (singletonFreqs δ n) n (δ n) = singletonFreqs δ (n + 1) := by
  rw [insertSample_of_fresh_key, singletonFreqs_succ]
  intro e he
  simp only [singletonFreqs, List.mem_map, List.mem_range] at he
  obtain ⟨d, hd, rfl⟩ := he
  exact Nat.ne_of_lt hd

lemma computeVerdict_of_no_qualifying (freqs : List (ℕ × List ℝ))
    (h : ∀ e ∈ freqs, e.2.length ≤ 1) :
    computeVerdict freqs = ⟨[], none, false⟩ := by
  unfold computeVerdict
  have hfil : freqs.filter (fun e => decide (1 < e.2.length)) = [] := by
    rw [List.filter_eq_nil_iff]
    intro e he
    simpa using Nat.not_lt.mpr (h e he)
  simp [hfil]

lemma computeVerdict_singletonFreqs (δ : ℕ → ℝ) (n : ℕ) :
    computeVerdict (singletonFreqs δ n) = ⟨[], none, false⟩ := by
  apply computeVerdict_of_no_qualifying
  intro e he
  simp only [singletonFreqs, List.mem_map, List.mem_range] at he
  obtain ⟨d, _, rfl⟩ := he
  simp

lemma analyzeResonancePattern_freqs (s : RunState) :
    (analyzeResonancePattern s).freqs = s.freqs := by
  unfold analyzeResonancePattern
  split <;> rfl

lemma analyzeResonancePattern_layersCompleted (s : RunState) :
    (analyzeResonancePattern s).layersCompleted = s.layersCompleted := by
  unfold analyzeResonancePattern
  split <;> rfl

lemma analyzeResonancePattern_of_not_converged (s : RunState)
    (h : (computeVerdict s.freqs).converged = false) :
    analyzeResonancePattern s = s := by
  unfold analyzeResonancePattern
  simp [h]

lemma recordFrequency_on_singletons (δ : ℕ → ℝ) (n : ℕ) (s : RunState)
    (h : s.freqs = singletonFreqs δ n) :
    recordFrequency n (δ n) s = { s with freqs := singletonFreqs δ (n + 1) } := by
  unfold recordFrequency
  rw [h, insertSample_singletonFreqs]
  split
  · rw [analyzeResonancePattern_of_not_converged]
    rw [computeVerdict_singletonFreqs]
  · rfl

lemma recordFrequency_layersCompleted (layer : ℕ) (delay : ℝ) (s : RunState) :
    (recordFrequency layer delay s).layersCompleted = s.layersCompleted := by
  unfold recordFrequency
  split
  · rw [analyzeResonancePattern_layersCompleted]
  · rfl

lemma expectedDelay_pos (layer : ℕ) : 0 < expectedDelay layer := by
  unfold expectedDelay
  positivity

lemma layerDeviation_of_constant (layer : ℕ) (l : List ℝ) (hne : l ≠ [])
    (h : ∀ x ∈ l, x = expectedDelay layer) : layerDeviation layer l = 0 := by
  unfold layerDeviation
  have hsum : l.sum = (l.length : ℝ) * expectedDelay layer := by
    rw [List.sum_eq_card_nsmul l _ h, nsmul_eq_mul]
  have hlen : (l.length : ℝ) ≠ 0 :=
    Nat.cast_ne_zero.mpr (List.length_pos.mpr hne).ne'
  rw [hsum, mul_div_cancel_left₀ _ hlen]
  simp

lemma computeVerdict_all_zero_dev (freqs : List (ℕ × List ℝ)) (hne : freqs ≠ [])
    (hq : ∀ e ∈ freqs, 1 < e.2.length)
    (hz : ∀ e ∈ freqs, layerDeviation e.1 e.2 = 0) :
    (computeVerdict freqs).aggregateDeviation = some 0 ∧
      (computeVerdict freqs).converged = true := by
  unfold computeVerdict
  have hfil : freqs.filter (fun e => decide (1 < e.2.length)) = freqs := by
    rw [List.filter_eq_self]
    intro e he
    simpa using hq e he
  have hdevs : (freqs.map (fun e => (e.1, layerDeviation e.1 e.2))).map Prod.snd =
      freqs.map (fun e => layerDeviation e.1 e.2) := by
    simp [List.map_map]
  have hsum : (freqs.map (fun e => layerDeviation e.1 e.2)).sum = 0 := by
    rw [List.sum_eq_card_nsmul _ (0 : ℝ)]
    · simp
    · intro x hx
      obtain ⟨e, he, rfl⟩ := List.mem_map.mp hx
      exact hz e he
  have hmapne : freqs.map (fun e => (e.1, layerDeviation e.1 e.2)) ≠ [] := by
    simpa using hne
  simp only [hfil, hdevs, hmapne, if_neg, hsum, zero_div]
  norm_num

lemma computeLevels_getD (alpha : ℝ) (layerCount : ℕ) (d : ℕ) (h : d < layerCount) :
    (computeLevels alpha layerCount).getD d 0 = Real.exp (-(alpha * d)) := by
  have hlen : d < (computeLevels alpha layerCount).length := by
    rw [computeLevels, List.length_map, List.length_range]
    exact h
  rw [List.getD_eq_getElem?_getD, List.getElem?_eq_getElem hlen]
  simp only [computeLevels, List.getElem_map, List.getElem_range, Option.getD_some]

lemma deliverResponses_count (resps : List (HandshakeResponseMsg × ℕ)) :
    ∀ s : CoordState,
      (deliverResponses resps s).bridgesCreated = s.bridgesCreated + resps.length := by
  induction resps with
  | nil => intro s; simp [deliverResponses]
  | cons a t ih =>
    intro s
    have := ih (establishTemporalBridge a.2 a.1 s)
    simp only [deliverResponses, List.foldl_cons] at this ⊢
    rw [this]
    simp [establishTemporalBridge]
    omega

lemma deliverResponses_last (resps : List (HandshakeResponseMsg × ℕ)) :
    ∀ (s : CoordState) (r : HandshakeResponseMsg × ℕ), resps.getLast? = some r →
      (deliverResponses resps s).activeBridge =
        some { id := r.1.bridgeId, energy := r.1.energy, established := r.2 } := by
  induction resps with
  | nil => intro s r h; simp at h
  | cons a t ih =>
    intro s r h
    cases t with
    | nil =>
      simp only [List.getLast?_singleton, Option.some.injEq] at h
      subst h
      simp [deliverResponses, establishTemporalBridge]
    | cons b t2 =>
      rw [List.getLast?_cons_cons] at h
      have := ih (establishTemporalBridge a.2 a.1 s) r h
      simpa [deliverResponses, List.foldl_cons] using this

lemma runCascade_no_fault_inv (clock : ℕ → ℝ) (levels : List ℝ) :
    ∀ (n d : ℕ) (s : RunState), d + n = LAYERS →
      s.freqs = singletonFreqs
        (fun k => createTemporalPressureDelay k (levels.getD k 0) (clock k)) d →
      runCascade (fun _ => none) (fun _ => none) (fun _ => none) clock levels d n s =
        .ok { freqs := singletonFreqs
                (fun k => createTemporalPressureDelay k (levels.getD k 0) (clock k)) LAYERS
              resonanceEstablished := s.resonanceEstablished
              handshakeAttempts := s.handshakeAttempts
              stimuliFired := s.stimuliFired + 3 * n
              layersCompleted := s.layersCompleted + n } := by
  intro n
  induction n with
  | zero =>
    intro d s hd hf
    have hdL : d = LAYERS := by omega
    subst hdL
    cases s with
    | mk fr re ha st la =>
      simp only [runCascade]
      simp only at hf
      simp [hf]
  | succ n ih =>
    intro d s hd hf
    simp only [runCascade, createTemporalPressure, applyDOMPressure,
      applyWorkerPressure, applyRAFPressure]
    rw [recordFrequency_on_singletons
      (fun k => createTemporalPressureDelay k (levels.getD k 0) (clock k)) d _ (by simpa using hf)]
    rw [ih (d + 1) _ (by omega) (by rfl)]
    simp only [Except.ok.injEq]
    congr 1 <;> omega

lemma foldRecord_singletons (δ : ℕ → ℝ) :
    ∀ n : ℕ,
      (List.range n).foldl (fun s d => recordFrequency d (δ d) s) initState =
        { initState with freqs := singletonFreqs δ n } := by
  intro n
  induction n with
  | zero => rfl
  | succ n ih =>
    simp only [List.range_succ, List.foldl_append, List.foldl_cons, List.foldl_nil, ih]
    exact recordFrequency_on_singletons δ n _ rfl

lemma createTemporalPressure_worker_fault_ok (workF : ℕ → Option ℕ) (now : ℝ)
    (layer : ℕ) (energy : ℝ) (s : RunState) :
    ∃ t, createTemporalPressure (fun _ => none) workF (fun _ => none)
        now layer energy s = .ok t ∧ t.layersCompleted = s.layersCompleted := by
  cases hw : workF layer with
  | some e =>
    simp only [createTemporalPressure, applyDOMPressure, applyWorkerPressure,
      applyRAFPressure, hw]
    exact ⟨_, rfl, recordFrequency_layersCompleted _ _ _⟩
  | none =>
    simp only [createTemporalPressure, applyDOMPressure, applyWorkerPressure,
      applyRAFPressure, hw]
    exact ⟨_, rfl, recordFrequency_layersCompleted _ _ _⟩

lemma runCascade_worker_fault_ok (workF : ℕ → Option ℕ) (clock : ℕ → ℝ)
    (levels : List ℝ) :
    ∀ (n d : ℕ) (s : RunState), ∃ s2,
      runCascade (fun _ => none) workF (fun _ => none) clock levels d n s = .ok s2
      ∧ s2.layersCompleted = s.layersCompleted + n := by
  intro n
  induction n with
  | zero => intro d s; exact ⟨s, rfl, by omega⟩
  | succ n ih =>
    intro d s
    obtain ⟨t, ht, hl⟩ :=
      createTemporalPressure_worker_fault_ok workF (clock d) d (levels.getD d 0) s
    obtain ⟨s2, h2, hl2⟩ := ih (d + 1) { t with layersCompleted := t.layersCompleted + 1 }
    refine ⟨s2, ?_, ?_⟩
    · simp only [runCascade, ht, h2]
    · simp only at hl2
      omega

/-- C3: in a single execution of `triggerCrossDomainVortex` on a fresh vortex
(no external re-triggering, no stimulus faults), every one of the 33 layers
ends with exactly one recorded delay sample, no layer passes the
more-than-one-sample filter of `analyzeResonancePattern` (its per-layer
deviation list is empty), and consequently `resonanceEstablished` stays false
and `attemptCrossDomainHandshake` is never invoked. -/
theorem single_run_no_resonance (clock : ℕ → ℝ) :
    triggerCrossDomainVortex (fun _ => none) (fun _ => none) (fun _ => none) clock LAYERS =
      .ok { freqs := singletonFreqs (fun k => createTemporalPressureDelay k
              ((computeLevels ALPHA LAYERS).getD k 0) (clock k)) LAYERS
            resonanceEstablished := false
            handshakeAttempts := 0
            stimuliFired := 3 * LAYERS
            layersCompleted := LAYERS }
    ∧ (∀ e ∈ singletonFreqs (fun k => createTemporalPressureDelay k
          ((computeLevels ALPHA LAYERS).getD k 0) (clock k)) LAYERS, e.2.length = 1)
    ∧ (computeVerdict (singletonFreqs (fun k => createTemporalPressureDelay k
          ((computeLevels ALPHA LAYERS).getD k 0) (clock k)) LAYERS)).perLayerDeviation = [] := by
  refine ⟨?_, ?_, ?_⟩
  · have h := runCascade_no_fault_inv clock (computeLevels ALPHA LAYERS) LAYERS 0 initState
      (by omega) rfl
    rw [triggerCrossDomainVortex, h]
    rfl
  · intro e he
    simp only [singletonFreqs, List.mem_map, List.mem_range] at he
    obtain ⟨d, _, rfl⟩ := he
    rfl
  · rw [computeVerdict_singletonFreqs]

/-- C2 counterexample: in the run in which each of the 33 layers reports its
observed delay exactly equal to the expected value `expectedDelay layer`
(one report per layer, as any single cascade run produces), the aggregate
deviation is the JS NaN (modelled `none`), not 0, and the analyzer does not
converge: the claimed `aggregateDeviation == 0` and `converged == true` are
both false. -/
theorem perfect_single_report_run_not_converged :
    ((List.range LAYERS).foldl (fun s d => recordFrequency d (expectedDelay d) s)
        initState).resonanceEstablished = false
    ∧ (computeVerdict ((List.range LAYERS).foldl
        (fun s d => recordFrequency d (expectedDelay d) s) initState).freqs).aggregateDeviation
        = none
    ∧ (computeVerdict ((List.range LAYERS).foldl
        (fun s d => recordFrequency d (expectedDelay d) s) initState).freqs).converged
        = false := by
  rw [foldRecord_singletons expectedDelay LAYERS]
  refine ⟨rfl, ?_, ?_⟩ <;> simp [computeVerdict_singletonFreqs]

/-- C2 amended: when every one of the 33 layers reports its observed delay
equal to the expected value `EnergyLevel[layer] * 1000` at least twice (so
that each layer passes the more-than-one-sample filter), the aggregate
deviation equals 0 and the converged flag is set. -/
theorem perfect_repeated_reports_converge (samples : ℕ → List ℝ)
    (hlen : ∀ d, d < LAYERS → 2 ≤ (samples d).length)
    (hval : ∀ d, d < LAYERS → ∀ x ∈ samples d, x = expectedDelay d) :
    (computeVerdict ((List.range LAYERS).map
        (fun d => (d, samples d)))).aggregateDeviation = some 0
    ∧ (computeVerdict ((List.range LAYERS).map
        (fun d => (d, samples d)))).converged = true := by
  apply computeVerdict_all_zero_dev
  · simp [LAYERS]
  · intro e he
    obtain ⟨d, hd, rfl⟩ := List.mem_map.mp he
    have := hlen d (List.mem_range.mp hd)
    simpa using this
  · intro e he
    obtain ⟨d, hd, rfl⟩ := List.mem_map.mp he
    have hd33 := List.mem_range.mp hd
    apply layerDeviation_of_constant
    · exact List.ne_nil_of_length_pos (Nat.lt_of_lt_of_le (by norm_num) (hlen d hd33))
    · exact hval d hd33

/-- C2 witness: the amended statement applied to the concrete run in which
every layer reports the expected delay exactly twice. -/
theorem perfect_repeated_reports_converge_witness :
    (computeVerdict ((List.range LAYERS).map
        (fun d => (d, [expectedDelay d, expectedDelay d])))).aggregateDeviation = some 0
    ∧ (computeVerdict ((List.range LAYERS).map
        (fun d => (d, [expectedDelay d, expectedDelay d])))).converged = true :=
  perfect_repeated_reports_converge (fun d => [expectedDelay d, expectedDelay d])
    (fun d _ => by norm_num)
    (fun d _ x hx => by
      rcases List.mem_cons.mp hx with h | h
      · exact h
      · simpa using h)

lemma analyzeResonancePattern_res_of_converged (t : RunState)
    (h : (computeVerdict t.freqs).converged = true) :
    (analyzeResonancePattern t).resonanceEstablished = true := by
  unfold analyzeResonancePattern
  rw [if_pos h]

/-- C4: re-running the analyzer after it has produced a verdict is idempotent:
the second `analyzeResonancePattern` call computes an identical
`ResonanceVerdict` (the frequency map is untouched) and leaves the analyzer
state — frequency map and `resonanceEstablished` flag — unchanged. -/
theorem finalize_idempotent (s : RunState) :
    computeVerdict (analyzeResonancePattern s).freqs = computeVerdict s.freqs
    ∧ (analyzeResonancePattern (analyzeResonancePattern s)).freqs =
        (analyzeResonancePattern s).freqs
    ∧ (analyzeResonancePattern (analyzeResonancePattern s)).resonanceEstablished =
        (analyzeResonancePattern s).resonanceEstablished := by
  refine ⟨by rw [analyzeResonancePattern_freqs], by rw [analyzeResonancePattern_freqs], ?_⟩
  by_cases h : (computeVerdict s.freqs).converged = true
  · have h1 : (computeVerdict (analyzeResonancePattern s).freqs).converged = true := by
      rw [analyzeResonancePattern_freqs]
      exact h
    rw [analyzeResonancePattern_res_of_converged _ h1,
      analyzeResonancePattern_res_of_converged _ h]
  · have hf : (computeVerdict s.freqs).converged = false := by
      simpa using h
    have e1 : analyzeResonancePattern s = s := analyzeResonancePattern_of_not_converged s hf
    rw [e1]
    rw [e1]

/-- C5 counterexample: with `layerCount = 0` the energy-level construction
does not fail — there is no ConfigError anywhere in the code — it returns the
empty sequence, and the whole vortex run succeeds immediately. -/
theorem zero_layer_count_no_config_error :
    computeLevels ALPHA 0 = []
    ∧ triggerCrossDomainVortex (fun _ => none) (fun _ => none) (fun _ => none)
        (fun _ => 0) 0 = .ok initState := ⟨rfl, rfl⟩

/-- C5 amended: the constructor performs no configuration validation: for
`layerCount = 0` it produces the empty `EnergyLevel` sequence and the cascade
terminates normally without executing any layer or firing any stimulus. -/
theorem zero_layer_count_runs_no_layers (domF workF rafF : ℕ → Option ℕ)
    (clock : ℕ → ℝ) :
    triggerCrossDomainVortex domF workF rafF clock 0 = .ok initState
    ∧ initState.layersCompleted = 0
    ∧ initState.stimuliFired = 0
    ∧ computeLevels ALPHA 0 = [] := ⟨rfl, rfl, rfl, rfl⟩

/-- C6 counterexample: a failure of the visual/DOM stimulus at layer 0 is not
caught anywhere (`applyDOMPressure` has no try/catch), so it propagates to the
cascade driver and aborts the run before any layer completes: the claim that
every stimulus failure is swallowed locally is false. -/
theorem dom_stimulus_failure_aborts_cascade :
    triggerCrossDomainVortex (fun l => if l = 0 then some 7 else none)
      (fun _ => none) (fun _ => none) (fun _ => 0) LAYERS = .error 7 := rfl

/-- C6 amended: only the isolated-compute (worker) stimulus swallows its
failures — its body is wrapped in try/catch — so for every worker fault
injection the sequential cascade still completes all 33 layers; failures of
the DOM and per-frame stimuli are uncaught and abort the cascade. -/
theorem worker_stimulus_failure_swallowed (workF : ℕ → Option ℕ) (clock : ℕ → ℝ) :
    ∃ s, triggerCrossDomainVortex (fun _ => none) workF (fun _ => none)
        clock LAYERS = .ok s ∧ s.layersCompleted = LAYERS := by
  obtain ⟨s2, h, hl⟩ := runCascade_worker_fault_ok workF clock
    (computeLevels ALPHA LAYERS) LAYERS 0 initState
  exact ⟨s2, h, by simpa [initState] using hl⟩

/-- C7 counterexample: the delay computation reads the ambient clock
(`Date.now()`) internally: two invocations with identical layer index, energy
and configuration but different ambient clock values return different
outputs, so the function is not pure in its declared inputs. -/
theorem compute_delay_reads_ambient_clock :
    createTemporalPressureDelay 0 1 0 ≠ createTemporalPressureDelay 0 1 (500 * Real.pi) := by
  have hpf : primeFactor 0 = 2 := rfl
  have h1 : createTemporalPressureDelay 0 1 0 = 2000 := by
    unfold createTemporalPressureDelay
    rw [hpf]
    norm_num [Real.sin_zero]
  have h2 : createTemporalPressureDelay 0 1 (500 * Real.pi) = 2050 := by
    unfold createTemporalPressureDelay
    rw [hpf]
    have hs : Real.sin ((500 * Real.pi) * 0.001) = 1 := by
      have harg : (500 * Real.pi) * 0.001 = Real.pi / 2 := by ring_nf
      rw [harg, Real.sin_pi_div_two]
    rw [if_pos rfl, hs]
    norm_num
  rw [h1, h2]
  norm_num

/-- C7 amended: with the ambient clock sample surfaced as an explicit input,
the delay computation is deterministic: equal (layerIndex, energy,
clockSample) triples give equal outputs.  The source, however, reads the
clock internally rather than receiving it as a parameter. -/
theorem compute_delay_deterministic_given_clock (layer : ℕ) (energy t1 t2 : ℝ)
    (h : t1 = t2) :
    createTemporalPressureDelay layer energy t1 =
      createTemporalPressureDelay layer energy t2 := by
  rw [h]

/-- C7 witness: the determinism statement applied at a concrete input. -/
theorem compute_delay_deterministic_given_clock_witness :
    createTemporalPressureDelay 0 1 0 = createTemporalPressureDelay 0 1 0 :=
  compute_delay_deterministic_given_clock 0 1 0 0 rfl

/-- C8: for every layer index, energy and ambient clock reading, the computed
delay equals the specified formula `max(1, energy * primeFactor * 1000 +
jitter)` with `primeFactor` the first prime in the configured set dividing
the layer index (1 if none divides) and `jitter = sin/cos(clockSample) * 50`
by layer parity, where the clock sample is the internally read
`Date.now() * 0.001`; in particular the result is always at least 1. -/
theorem compute_delay_formula (layer : ℕ) (energy now : ℝ) :
    createTemporalPressureDelay layer energy now =
      computeDelaySpec layer energy (now * 0.001)
    ∧ 1 ≤ createTemporalPressureDelay layer energy now := by
  constructor
  · rfl
  · unfold createTemporalPressureDelay
    exact le_max_left _ _

/-- C9: the verdict is computed from the layers with at least two samples
alone — filtering the frequency map to those layers does not change the
verdict — and when no layer qualifies the aggregate deviation is undefined
(the JS NaN, modelled `none`) and is treated as not converged, without
crashing. -/
theorem finalize_excludes_sparse_layers (freqs : List (ℕ × List ℝ)) :
    computeVerdict freqs =
      computeVerdict (freqs.filter (fun e => decide (1 < e.2.length)))
    ∧ ((∀ e ∈ freqs, e.2.length ≤ 1) →
        (computeVerdict freqs).aggregateDeviation = none
        ∧ (computeVerdict freqs).converged = false) := by
  constructor
  · simp only [computeVerdict, List.filter_filter, Bool.and_self]
  · intro h
    rw [computeVerdict_of_no_qualifying freqs h]
    exact ⟨rfl, rfl⟩

/-- C9 witness: a frequency map in which the only layer has a single sample
yields an undefined aggregate and a non-converged verdict. -/
theorem finalize_excludes_sparse_layers_witness :
    (computeVerdict [((0 : ℕ), [(5 : ℝ)])]).aggregateDeviation = none
    ∧ (computeVerdict [((0 : ℕ), [(5 : ℝ)])]).converged = false :=
  (finalize_excludes_sparse_layers [((0 : ℕ), [(5 : ℝ)])]).2 (by simp)

/-- C10: for every valid configuration (positive decay constant, positive
layer count) the computed energy sequence satisfies
`EnergyLevel[d] = exp(-decayConstant * d)`, is strictly decreasing in `d`,
has every value in the interval (0, 1], and starts at
`EnergyLevel[0] = 1`. -/
theorem compute_levels_exponential_decay (alpha : ℝ) (layerCount : ℕ)
    (ha : 0 < alpha) (hL : 0 < layerCount) :
    (∀ d, d < layerCount →
      (computeLevels alpha layerCount).getD d 0 = Real.exp (-(alpha * d)))
    ∧ (∀ d, d + 1 < layerCount →
      (computeLevels alpha layerCount).getD (d + 1) 0 <
        (computeLevels alpha layerCount).getD d 0)
    ∧ (∀ d, d < layerCount →
      0 < (computeLevels alpha layerCount).getD d 0
      ∧ (computeLevels alpha layerCount).getD d 0 ≤ 1)
    ∧ (computeLevels alpha layerCount).getD 0 0 = 1 := by
  refine ⟨fun d hd => computeLevels_getD _ _ _ hd, ?_, ?_, ?_⟩
  · intro d hd
    rw [computeLevels_getD _ _ _ hd, computeLevels_getD _ _ _ (by omega)]
    apply Real.exp_lt_exp.mpr
    push_cast
    nlinarith
  · intro d hd
    rw [computeLevels_getD _ _ _ hd]
    refine ⟨Real.exp_pos _, ?_⟩
    apply Real.exp_le_one_iff.mpr
    simp only [neg_nonpos]
    positivity
  · rw [computeLevels_getD _ _ 0 hL]
    simp

/-- C10 witness: the first energy level of the concrete configuration
`decayConstant = 1`, `layerCount = 2` equals 1. -/
theorem compute_levels_exponential_decay_witness :
    (computeLevels 1 2).getD 0 0 = 1 :=
  (compute_levels_exponential_decay 1 2 (by norm_num) (by norm_num)).2.2.2

/-- C1 counterexample: two `HandshakeResponse` deliveries to a fresh
coordinator create two Bridges, and the second delivery overwrites the first
Bridge in `activeBridge`: Bridge creation is not single-assignment and later
responses are not no-ops. -/
theorem bridge_creation_not_single_assignment :
    (deliverResponses [({ bridgeId := 1, energy := 1 }, 10),
        ({ bridgeId := 2, energy := 2 }, 20)] initCoord).bridgesCreated = 2
    ∧ (deliverResponses [({ bridgeId := 1, energy := 1 }, 10),
        ({ bridgeId := 2, energy := 2 }, 20)] initCoord).activeBridge =
        some { id := 2, energy := 2, established := 20 }
    ∧ (deliverResponses [({ bridgeId := 1, energy := 1 }, 10),
        ({ bridgeId := 2, energy := 2 }, 20)] initCoord).activeBridge ≠
        some { id := 1, energy := 1, established := 10 } := by
  refine ⟨rfl, rfl, ?_⟩
  intro h
  simp only [deliverResponses, List.foldl_cons, List.foldl_nil,
    establishTemporalBridge, Option.some.injEq, Bridge.mk.injEq] at h
  omega

/-- C1 amended: every `HandshakeResponse` delivery creates a Bridge and
overwrites `activeBridge`: after N deliveries exactly N Bridges have been
created and `activeBridge` holds the Bridge built from the last response. -/
theorem bridge_creation_last_writer_wins
    (resps : List (HandshakeResponseMsg × ℕ)) (r : HandshakeResponseMsg × ℕ)
    (h : resps.getLast? = some r) :
    (deliverResponses resps initCoord).bridgesCreated = resps.length
    ∧ (deliverResponses resps initCoord).activeBridge =
        some { id := r.1.bridgeId, energy := r.1.energy, established := r.2 } := by
  constructor
  · rw [deliverResponses_count resps initCoord]
    simp [initCoord]
  · exact deliverResponses_last resps initCoord r h

/-- C1 witness: the amended statement applied to a single concrete delivery. -/
theorem bridge_creation_last_writer_wins_witness :
    (deliverResponses [({ bridgeId := 5, energy := 3 }, 7)] initCoord).bridgesCreated =
      [(({ bridgeId := 5, energy := 3 } : HandshakeResponseMsg), 7)].length
    ∧ (deliverResponses [({ bridgeId := 5, energy := 3 }, 7)] initCoord).activeBridge =
        some { id := 5, energy := 3, established := 7 } :=
  bridge_creation_last_writer_wins [({ bridgeId := 5, energy := 3 }, 7)]
    ({ bridgeId := 5, energy := 3 }, 7) rfl
